import Mathlib

/-!
Verification of the GCP (Glitchi Communication Protocol) host-side engine
from src/src-tauri/src/gcp.rs and src/src-tauri/src/lib.rs.

Shallow embedding conventions:
- u8 / u16 / u32 / usize values are `Nat`; wrapping machine arithmetic is
  written with an explicit `% 65536` (u16) or `% USIZE` (usize) exactly where
  the Rust source performs a wrapping operation in a release build.
- Rust slice expressions `&data[a..b]` are modelled by `sliceChecked`, which
  returns `none` exactly when Rust would panic (start above end, or end above
  the length); a panic outcome is the `crash` constructor of the result type.
- `Vec<u8>` becomes `List Nat`; fallible functions return `Except` or a
  dedicated result inductive.
-/

/-- The usize modulus (64-bit build). -/
def USIZE : Nat := 2 ^ 64

/-- `GcpCommand` from gcp.rs: the protocol command tags. -/
inductive GcpCommand
  | Hello
  | Ack
  | Nack
  | Reset
  | Ping
  | FwUpdateStart
  | FwUpdateData
  | FwUpdateEnd
  | FwUpdateAbort
  | FwUpdateRequest
  | FwNoUpdateAvailable
  | GetStatus
  | SetConfig
  | GetInfo
  | GetDiagnostics
  | GetFwVersion
  deriving DecidableEq

/-- The `#[repr(u16)]` discriminant of each `GcpCommand` variant. -/
def GcpCommand.toU16 : GcpCommand → Nat
  | .Hello => 0x0001
  | .Ack => 0x0002
  | .Nack => 0x0003
  | .Reset => 0x0004
  | .Ping => 0x0005
  | .FwUpdateStart => 0x1001
  | .FwUpdateData => 0x1002
  | .FwUpdateEnd => 0x1003
  | .FwUpdateAbort => 0x1004
  | .FwUpdateRequest => 0x1005
  | .FwNoUpdateAvailable => 0x1006
  | .GetStatus => 0x2001
  | .SetConfig => 0x2002
  | .GetInfo => 0x2003
  | .GetDiagnostics => 0x2004
  | .GetFwVersion => 0x2005

/-- `impl From<u16> for GcpCommand` (gcp.rs lines 46-68): every undefined
value falls back to `Hello` (the source comment says "Default fallback"). -/
def GcpCommand.ofU16 (v : Nat) : GcpCommand :=
  if v = 0x0001 then .Hello
  else if v = 0x0002 then .Ack
  else if v = 0x0003 then .Nack
  else if v = 0x0004 then .Reset
  else if v = 0x0005 then .Ping
  else if v = 0x1001 then .FwUpdateStart
  else if v = 0x1002 then .FwUpdateData
  else if v = 0x1003 then .FwUpdateEnd
  else if v = 0x1004 then .FwUpdateAbort
  else if v = 0x1005 then .FwUpdateRequest
  else if v = 0x1006 then .FwNoUpdateAvailable
  else if v = 0x2001 then .GetStatus
  else if v = 0x2002 then .SetConfig
  else if v = 0x2003 then .GetInfo
  else if v = 0x2004 then .GetDiagnostics
  else if v = 0x2005 then .GetFwVersion
  else .Hello

/-- The u16 discriminants that are actually defined in the `GcpCommand` enum. -/
def definedCommandCodes : List Nat :=
  [0x0001, 0x0002, 0x0003, 0x0004, 0x0005,
   0x1001, 0x1002, 0x1003, 0x1004, 0x1005, 0x1006,
   0x2001, 0x2002, 0x2003, 0x2004, 0x2005]

/-- One step of the CRC-16-CCITT inner bit loop (gcp.rs `gcp_crc16`):
left shift on u16 (wrapping), xor with 0x1021 when bit 15 was set. -/
def crc16_shift (c : Nat) : Nat :=
  if c / 32768 % 2 = 1 then (c * 2 % 65536) ^^^ 0x1021 else c * 2 % 65536

/-- `n` iterations of `crc16_shift` (the source runs the loop 8 times). -/
def crc16_shiftN : Nat → Nat → Nat
  | 0, c => c
  | n + 1, c => crc16_shiftN n (crc16_shift c)

/-- Processing one input byte in `gcp_crc16`:
`crc ^= (byte as u16) << 8` followed by 8 shift steps. -/
def crc16_update (c b : Nat) : Nat :=
  crc16_shiftN 8 (c ^^^ b * 256)

/-- CRC-16-CCITT as implemented by `gcp_crc16` (gcp.rs lines 264-280):
initial value 0xFFFF, polynomial 0x1021, no reflection, no final xor. -/
def gcp_crc16 (data : List Nat) : Nat :=
  data.foldl crc16_update 0xFFFF

/-- One step of the CRC-32 inner bit loop (gcp.rs `gcp_crc32`): right shift,
xor with the reversed polynomial 0xEDB88320 when bit 0 was set. -/
def crc32_shift (c : Nat) : Nat :=
  if c % 2 = 1 then (c / 2) ^^^ 0xEDB88320 else c / 2

/-- `n` iterations of `crc32_shift` (the source runs the loop 8 times). -/
def crc32_shiftN : Nat → Nat → Nat
  | 0, c => c
  | n + 1, c => crc32_shiftN n (crc32_shift c)

/-- Processing one input byte in `gcp_crc32`: `crc ^= byte as u32`
followed by 8 shift steps. -/
def crc32_update (c b : Nat) : Nat :=
  crc32_shiftN 8 (c ^^^ b)

/-- CRC-32 as implemented by `gcp_crc32` (gcp.rs lines 283-299): initial
value 0xFFFFFFFF, reflected polynomial 0xEDB88320, final xor 0xFFFFFFFF. -/
def gcp_crc32 (data : List Nat) : Nat :=
  (data.foldl crc32_update 0xFFFFFFFF) ^^^ 0xFFFFFFFF

/-- `u16::to_le_bytes`. -/
def le16 (n : Nat) : List Nat :=
  [n % 256, n / 256 % 256]

/-- `GcpFrame` (gcp.rs lines 125-131). -/
structure GcpFrame where
  length : Nat
  msg_type : GcpCommand
  parameters : List Nat
  data : List Nat
  deriving DecidableEq

/-- `GcpFrame::new`: base length 6, two reserved zero parameter bytes. -/
def GcpFrame.new (mt : GcpCommand) : GcpFrame :=
  { length := 6, msg_type := mt, parameters := [0, 0], data := [] }

/-- `GcpFrame::with_data`: length is `4 + |params| + |data|` computed in u16
(`as u16` casts truncate, u16 addition wraps in a release build). -/
def GcpFrame.with_data (mt : GcpCommand) (p d : List Nat) : GcpFrame :=
  { length := (4 + p.length % 65536 + d.length % 65536) % 65536,
    msg_type := mt, parameters := p, data := d }

/-- `GcpFrame::with_parameters`: like `with_data` with empty data. -/
def GcpFrame.with_parameters (mt : GcpCommand) (p : List Nat) : GcpFrame :=
  { length := (4 + p.length % 65536) % 65536, msg_type := mt,
    parameters := p, data := [] }

/-- `GcpFrame::serialize` (gcp.rs lines 163-187): preamble, little-endian
length and msg_type, parameters, data, then the CRC-16 of everything after
the preamble, little-endian. -/
def GcpFrame.serialize (f : GcpFrame) : List Nat :=
  let body := le16 f.length ++ le16 f.msg_type.toU16 ++ f.parameters ++ f.data
  170 :: 85 :: (body ++ le16 (gcp_crc16 body))

/-- Rust `&data[a..b]`: `some` of the slice when `a ≤ b ≤ data.len()`,
otherwise `none` (Rust panics). -/
def sliceChecked (l : List Nat) (a b : Nat) : Option (List Nat) :=
  if a ≤ b ∧ b ≤ l.length then some ((l.take b).drop a) else none

/-- The failure cases of `GcpFrame::deserialize`; the source uses `String`
errors, modelled here as a tag carrying the same information. -/
inductive DesErr
  | tooShort
  | badPreamble
  | incomplete
  | crcMismatch (calculated received : Nat)
  deriving DecidableEq

/-- Outcome of `GcpFrame::deserialize`: a decoded frame, a returned error, or
a Rust panic (`crash`). -/
inductive DRes
  | crash
  | derr (e : DesErr)
  | dok (f : GcpFrame)
  deriving DecidableEq

/-- `GcpFrame::deserialize` (gcp.rs lines 189-260). The u16 additions
`length + 4` and `2 + length` wrap; `length as usize - 4` wraps in usize;
each Rust slice is `sliceChecked` and a failed bound check is a panic. -/
def deserialize (b : List Nat) : DRes :=
  if b.length < 10 then .derr .tooShort
  else if ¬(b.getD 0 0 = 170 ∧ b.getD 1 0 = 85) then .derr .badPreamble
  else
    let length := b.getD 2 0 + 256 * b.getD 3 0
    if b.length < (length + 4) % 65536 then .derr .incomplete
    else
      let msg_type := GcpCommand.ofU16 (b.getD 4 0 + 256 * b.getD 5 0)
      match sliceChecked b 2 ((2 + length) % 65536) with
      | none => .crash
      | some crc_data =>
        let calculated_crc := gcp_crc16 crc_data
        let received_crc := b.getD (b.length - 2) 0 + 256 * b.getD (b.length - 1) 0
        if ¬(calculated_crc = received_crc) then
          .derr (.crcMismatch calculated_crc received_crc)
        else
          let pdl := (length + (USIZE - 4)) % USIZE
          if pdl = 0 then
            .dok { length := length, msg_type := msg_type, parameters := [], data := [] }
          else
            let payload_end := (6 + pdl) % USIZE
            if msg_type = GcpCommand.Ack then
              match sliceChecked b 6 payload_end with
              | none => .crash
              | some payload =>
                .dok { length := length, msg_type := msg_type, parameters := [], data := payload }
            else
              if 2 ≤ pdl then
                match sliceChecked b 6 8 with
                | none => .crash
                | some ps =>
                  if 2 < pdl then
                    match sliceChecked b 8 payload_end with
                    | none => .crash
                    | some dp =>
                      .dok { length := length, msg_type := msg_type, parameters := ps, data := dp }
                  else
                    .dok { length := length, msg_type := msg_type, parameters := ps, data := [] }
              else
                match sliceChecked b 6 payload_end with
                | none => .crash
                | some dp =>
                  .dok { length := length, msg_type := msg_type, parameters := [], data := dp }

/-- `GcpHardwareData` (gcp.rs lines 116-123). -/
structure GcpHardwareData where
  manufacture_date : Nat
  serial_number : Nat
  board_type : Nat
  hw_revision : Nat
  chip_model : Nat
  features : Nat
  deriving DecidableEq

/-- `GcpStatusData` (gcp.rs lines 86-93); `rtc_time` is the 8-byte array. -/
structure GcpStatusData where
  battery_level : Nat
  system_state : Nat
  led_color : Nat
  led_brightness : Nat
  current_game_idx : Nat
  rtc_time : List Nat
  deriving DecidableEq

/-- `GcpFwVersionData` (gcp.rs lines 108-113); `fw_version_suffix` is the
3-byte array. -/
structure GcpFwVersionData where
  fw_version_major : Nat
  fw_version_minor : Nat
  fw_version_patch : Nat
  fw_version_suffix : List Nat
  deriving DecidableEq

/-- `parse_hardware_data` (gcp.rs lines 748-769): below 8 bytes it returns
the hard-coded default record, otherwise little-endian fields. -/
def parse_hardware_data (data : List Nat) : GcpHardwareData :=
  if data.length < 8 then
    { manufacture_date := 0x0A17, serial_number := 1000, board_type := 0x01,
      hw_revision := 0, chip_model := 0x40, features := 0x03 }
  else
    { manufacture_date := data.getD 0 0 + 256 * data.getD 1 0,
      serial_number := data.getD 2 0 + 256 * data.getD 3 0,
      board_type := data.getD 4 0, hw_revision := data.getD 5 0,
      chip_model := data.getD 6 0, features := data.getD 7 0 }

/-- `parse_status_data` (gcp.rs lines 670-691). -/
def parse_status_data (data : List Nat) : GcpStatusData :=
  if data.length < 15 then
    { battery_level := 0, system_state := 0, led_color := 0,
      led_brightness := 0, current_game_idx := 0,
      rtc_time := [0, 0, 0, 0, 0, 0, 0, 0] }
  else
    { battery_level := data.getD 0 0, system_state := data.getD 1 0,
      led_color := data.getD 2 0 + 256 * data.getD 3 0,
      led_brightness := data.getD 4 0,
      current_game_idx := data.getD 5 0 + 256 * data.getD 6 0,
      rtc_time := [data.getD 7 0, data.getD 8 0, data.getD 9 0, data.getD 10 0,
                   data.getD 11 0, data.getD 12 0, data.getD 13 0, data.getD 14 0] }

/-- `parse_fw_version_data` (gcp.rs lines 728-745). -/
def parse_fw_version_data (data : List Nat) : GcpFwVersionData :=
  if data.length < 6 then
    { fw_version_major := 0, fw_version_minor := 0, fw_version_patch := 0,
      fw_version_suffix := [0, 0, 0] }
  else
    { fw_version_major := data.getD 0 0, fw_version_minor := data.getD 1 0,
      fw_version_patch := data.getD 2 0,
      fw_version_suffix := [data.getD 3 0, data.getD 4 0, data.getD 5 0] }

/-- The prefix skip computed in `send_hello` for an ACK response
(gcp.rs lines 500-504): skip 2 bytes when the payload is at least 10 bytes
long and starts with the HELLO command bytes 01 00, else start at 0. -/
def hello_hw_start (all_data : List Nat) : Nat :=
  if 10 ≤ all_data.length ∧ all_data.getD 0 0 = 0x01 ∧ all_data.getD 1 0 = 0x00
  then 2 else 0

/-- Processing of one successfully received response inside `send_hello`
(gcp.rs lines 485-535): every branch of the source `match` returns. -/
def processHelloResponse (resp : GcpFrame) : Except String GcpHardwareData :=
  let all_data := resp.parameters ++ resp.data
  if resp.msg_type = GcpCommand.Ack then
    if 8 ≤ all_data.length ∧ 8 ≤ (all_data.drop (hello_hw_start all_data)).length then
      .ok (parse_hardware_data (all_data.drop (hello_hw_start all_data)))
    else if 15 ≤ all_data.length then
      .ok { manufacture_date := 0x0A17, serial_number := 1000, board_type := 0x01,
            hw_revision := 0, chip_model := 0x40, features := 0x03 }
    else .error "HELLO ACK response has insufficient data"
  else
    if 8 ≤ all_data.length then .ok (parse_hardware_data all_data)
    else .error "Invalid HELLO response: insufficient data"

/-- The prefix skip computed in `get_status` for an ACK response
(gcp.rs lines 572-576): skip 2 bytes when the payload is at least 17 bytes
long and starts with the GET_STATUS command bytes 01 20, else start at 0. -/
def status_start (all_data : List Nat) : Nat :=
  if 17 ≤ all_data.length ∧ all_data.getD 0 0 = 0x01 ∧ all_data.getD 1 0 = 0x20
  then 2 else 0

/-- Processing of one successfully received response inside `get_status`
(gcp.rs lines 564-585). -/
def processStatusResponse (resp : GcpFrame) : Except String GcpStatusData :=
  let all_data := resp.parameters ++ resp.data
  if resp.msg_type = GcpCommand.Ack then
    if 15 ≤ (all_data.drop (status_start all_data)).length then
      .ok (parse_status_data (all_data.drop (status_start all_data)))
    else .error "Invalid status response: insufficient data"
  else
    if 15 ≤ all_data.length then .ok (parse_status_data all_data)
    else .error "Invalid status response: insufficient data"

/-- Processing of one successfully received response inside `get_fw_version`
(gcp.rs lines 613-632): for an ACK the source unconditionally takes bytes
6..12 of the concatenated payload when it has at least 12 bytes, without
inspecting the leading bytes. -/
def processFwVersionResponse (resp : GcpFrame) : Except String GcpFwVersionData :=
  let all_data := resp.parameters ++ resp.data
  if resp.msg_type = GcpCommand.Ack then
    if 12 ≤ all_data.length then
      .ok (parse_fw_version_data ((all_data.drop 6).take 6))
    else .error "Invalid fw version response: insufficient data"
  else
    if 6 ≤ all_data.length then .ok (parse_fw_version_data all_data)
    else .error "Invalid fw version response: insufficient data"

/-- The claimed ACK-payload slicing rule, written from the words of the
specification (section 4.F) for comparison with the code: skip the 6-byte
ECHOED_CMD+SEQ_NO prefix iff the concatenation is at least the expected
size plus 6 and its first two bytes are the request MSG_TYPE little-endian
(GET_FW_VER = 05 20); otherwise parse from offset 0; shorter input is an
InvalidResponse error. -/
def claimedFwVersionResponse (resp : GcpFrame) : Except String GcpFwVersionData :=
  let all_data := resp.parameters ++ resp.data
  if 6 + 6 ≤ all_data.length ∧ all_data.getD 0 0 = 0x05 ∧ all_data.getD 1 0 = 0x20 then
    .ok (parse_fw_version_data (all_data.drop 6))
  else if 6 ≤ all_data.length then
    .ok (parse_fw_version_data all_data)
  else .error "InvalidResponse"

/-- Outcome of one attempt of a request loop: the frame send fails, the
receive fails (timeout, corrupt frame, no data), or a frame is received. -/
inductive Attempt
  | sendErr (e : String)
  | recvErr (e : String)
  | recv (f : GcpFrame)

/-- The retry loop of `send_hello` (gcp.rs lines 481-552), parameterized by
the outcome of each attempt; `GCP_MAX_RETRIES = 3`.  On a received frame
every branch of the response handling returns immediately. -/
def hello_loop : Nat → List Attempt → Except String GcpHardwareData
  | _, [] => .error "HELLO command failed"
  | attempt, a :: rest =>
    match a with
    | .recv f => processHelloResponse f
    | .recvErr e =>
      if attempt = 3 then .error ("HELLO failed after 3 attempts: " ++ e)
      else hello_loop (attempt + 1) rest
    | .sendErr e =>
      if attempt = 3 then .error ("Failed to send HELLO after 3 attempts: " ++ e)
      else hello_loop (attempt + 1) rest

/-- `send_hello` as a function of the attempt outcomes. -/
def send_hello_model (attempts : List Attempt) : Except String GcpHardwareData :=
  hello_loop 1 attempts

/-- The retry loop of `get_status` (gcp.rs lines 560-601). -/
def status_loop : Nat → List Attempt → Except String GcpStatusData
  | _, [] => .error "Get status command failed"
  | attempt, a :: rest =>
    match a with
    | .recv f => processStatusResponse f
    | .recvErr e =>
      if attempt = 3 then .error ("Get status failed after 3 attempts: " ++ e)
      else status_loop (attempt + 1) rest
    | .sendErr e =>
      if attempt = 3 then .error ("Failed to send get status after 3 attempts: " ++ e)
      else status_loop (attempt + 1) rest

/-- `get_status` as a function of the attempt outcomes. -/
def get_status_model (attempts : List Attempt) : Except String GcpStatusData :=
  status_loop 1 attempts

/-- The retry loop of `get_fw_version` (gcp.rs lines 609-648). -/
def fw_version_loop : Nat → List Attempt → Except String GcpFwVersionData
  | _, [] => .error "Get fw version command failed"
  | attempt, a :: rest =>
    match a with
    | .recv f => processFwVersionResponse f
    | .recvErr e =>
      if attempt = 3 then .error ("Get fw version failed after 3 attempts: " ++ e)
      else fw_version_loop (attempt + 1) rest
    | .sendErr e =>
      if attempt = 3 then .error ("Failed to send get fw version after 3 attempts: " ++ e)
      else fw_version_loop (attempt + 1) rest

/-- `get_fw_version` as a function of the attempt outcomes. -/
def get_fw_version_model (attempts : List Attempt) : Except String GcpFwVersionData :=
  fw_version_loop 1 attempts

/-- `find_preamble` (gcp.rs lines 655-667): index of the first adjacent
byte pair 0xAA, 0x55, if any. -/
def find_preamble : List Nat → Option Nat
  | a :: b :: rest =>
    if a = 170 ∧ b = 85 then some 0
    else (find_preamble (b :: rest)).map (· + 1)
  | _ => none

/-- Outcome of `receive_frame`: a decoded frame, a decode error propagated
from `deserialize`, a panic, or the no-data error (a read that returned
zero bytes, which also models exhaustion of the byte stream). -/
inductive RRes
  | crash
  | noData
  | derr (e : DesErr)
  | rok (f : GcpFrame)
  deriving DecidableEq

/-- Lift a `deserialize` outcome into a `receive_frame` outcome. -/
def DRes.toRRes : DRes → RRes
  | .crash => .crash
  | .derr e => .derr e
  | .dok f => .rok f

/-- One-iteration continuation state of the `receive_frame` loop. -/
inductive StepRes
  | done (r : RRes)
  | cont (buf : List Nat) (found : Bool) (expected : Nat)

/-- The tail of one `receive_frame` iteration once the preamble is anchored
(gcp.rs lines 458-466): latch `expected_length` from bytes 2..4 when still
zero and at least 4 bytes are buffered; once `expected_length + 4` bytes
(u16 addition, wrapping) are buffered, deserialize that prefix. -/
def receive_check (buf : List Nat) (expected : Nat) : StepRes :=
  let expected1 :=
    if expected = 0 ∧ 4 ≤ buf.length then buf.getD 2 0 + 256 * buf.getD 3 0
    else expected
  if 0 < expected1 ∧ (expected1 + 4) % 65536 ≤ buf.length then
    .done (deserialize (buf.take ((expected1 + 4) % 65536))).toRRes
  else .cont buf true expected1

/-- One iteration of the `receive_frame` loop (gcp.rs lines 434-475) on one
read result `r`: an empty read is the no-data error; otherwise append to the
buffer; if the preamble is not yet found, scan for it, dropping the bytes
before it on success, and on failure clear the buffer when it exceeds 1000
bytes and keep reading. -/
def receive_step (buf : List Nat) (found : Bool) (expected : Nat)
    (r : List Nat) : StepRes :=
  if r.length = 0 then .done .noData
  else
    let buf1 := buf ++ r
    if found then receive_check buf1 expected
    else
      match find_preamble buf1 with
      | some pos => receive_check (buf1.drop pos) expected
      | none =>
        if 1000 < buf1.length then .cont [] false expected
        else .cont buf1 false expected

/-- `receive_frame` as a function of the sequence of reads delivered by the
serial port; an exhausted read sequence behaves like a zero-byte read. -/
def receive_loop (buf : List Nat) (found : Bool) (expected : Nat) :
    List (List Nat) → RRes
  | [] => .noData
  | r :: rest =>
    match receive_step buf found expected r with
    | .done res => res
    | .cont b f e => receive_loop b f e rest

/-- `FirmwareUpdateResult` (lib.rs lines 33-40). -/
structure FirmwareUpdateResult where
  success : Bool
  message : String
  crc32_match : Bool
  total_chunks : Nat
  total_bytes : Nat

/-- Modelled from the spec: outcomes of the firmware-update helper methods
`start_firmware_update`, `send_firmware_chunk` and `end_firmware_update`
of `GcpUartHandler`, whose implementations are not part of the sources
under src/ (lib.rs only calls them).  `end_firmware_update` reports the
CRC-32 match flag of the FW_END acknowledgment. -/
structure FwOracle where
  startResult : Except String Unit
  chunkResult : Nat → Except String Unit
  endResult : Except String Bool

/-- `GCP_RECOMMENDED_CHUNK_SIZE` (gcp.rs line 17). -/
def GCP_RECOMMENDED_CHUNK_SIZE : Nat := 2036

/-- The u32 modulus: `as u32` casts truncate modulo this value. -/
def U32 : Nat := 2 ^ 32

/-- The i-th chunk slice taken by the transfer loop of
`gcp_firmware_update` (lib.rs lines 232-235):
`firmware_data[i*chunk_size .. min(i*chunk_size + chunk_size, len)]`. -/
def fwChunk (fw : List Nat) (chunk_size i : Nat) : List Nat :=
  (fw.drop (i * chunk_size)).take chunk_size

/-- `total_chunks` (lib.rs line 191): `ceil(total_bytes / chunk_size)`
computed as `(total_bytes + chunk_size - 1) / chunk_size`. -/
def totalChunks (total_bytes chunk_size : Nat) : Nat :=
  (total_bytes + chunk_size - 1) / chunk_size

/-- The list of (offset, chunk bytes) pairs sent by the transfer loop when
every send is acknowledged. -/
def fwChunks (fw : List Nat) (chunk_size : Nat) : List (Nat × List Nat) :=
  (List.range (totalChunks fw.length chunk_size)).map
    (fun i => (i * chunk_size, fwChunk fw chunk_size i))

/-- The chunk-transfer loop of `gcp_firmware_update` (lib.rs lines 232-259):
`k` chunks remain, the next chunk index is `i`; returns the loop outcome and
the trace of FW_DATA sends (offset and bytes of each `send_firmware_chunk`
call, including a final failed one). -/
def sendChunksLoop (fw : List Nat) (chunk_size : Nat) (o : FwOracle) :
    Nat → Nat → Except String Unit × List (Nat × List Nat)
  | 0, _ => (.ok (), [])
  | k + 1, i =>
    match o.chunkResult i with
    | .ok _ =>
      let r := sendChunksLoop fw chunk_size o k (i + 1)
      (r.1, (i * chunk_size, fwChunk fw chunk_size i) :: r.2)
    | .error e =>
      (.error ("Failed to send chunk " ++ toString i ++ ": " ++ e),
       [(i * chunk_size, fwChunk fw chunk_size i)])

/-- `gcp_firmware_update` (lib.rs lines 176-304) as a function of the
firmware image, the chunk size (the Tauri command passes
`GCP_RECOMMENDED_CHUNK_SIZE`), and the device-side outcomes.
`total_bytes = firmware_data.len() as u32` truncates modulo 2^32
(lib.rs line 189), `total_chunks` is cast back to u32 (lib.rs line 191),
and the u32 accumulator `bytes_sent` wraps modulo 2^32 in a release build.
Progress events and timing text are not modelled (the success message is
abstracted to a fixed string); a `chunk_size` of zero, which would panic
in Rust on division by zero, is excluded by the theorems.  Returns the
command result and the FW_DATA trace. -/
def gcp_firmware_update_model (fw : List Nat) (chunk_size : Nat) (o : FwOracle) :
    Except String FirmwareUpdateResult × List (Nat × List Nat) :=
  let total_bytes := fw.length % U32
  let total_chunks := totalChunks total_bytes chunk_size % U32
  match o.startResult with
  | .error e => (.error ("Failed to start firmware update: " ++ e), [])
  | .ok _ =>
    let r := sendChunksLoop fw chunk_size o total_chunks 0
    let bytes_sent := (r.2.map (fun c => c.2.length)).sum % U32
    match r.1 with
    | .error e => (.error e, r.2)
    | .ok _ =>
      match o.endResult with
      | .error e => (.error ("Firmware verification failed: " ++ e), r.2)
      | .ok true =>
        (.ok { success := true, message := "Firmware update completed successfully",
               crc32_match := true, total_chunks := total_chunks,
               total_bytes := bytes_sent }, r.2)
      | .ok false =>
        (.ok { success := false,
               message := "Firmware verification failed - CRC32 mismatch",
               crc32_match := false, total_chunks := total_chunks,
               total_bytes := bytes_sent }, r.2)

/-- The LENGTH field a decoder reads from a candidate frame:
little-endian u16 at offsets 2 and 3. -/
def lengthField (b : List Nat) : Nat :=
  b.getD 2 0 + 256 * b.getD 3 0

/-- The CRC-16 `deserialize` computes over `bytes[2 .. 2+LENGTH]`
(well-defined shape: no u16 wrap). -/
def crcCalc (b : List Nat) : Nat :=
  gcp_crc16 ((b.take (2 + lengthField b)).drop 2)

/-- The received CRC `deserialize` reads from the last two bytes of the
slice, little-endian. -/
def crcRecv (b : List Nat) : Nat :=
  b.getD (b.length - 2) 0 + 256 * b.getD (b.length - 1) 0

set_option maxRecDepth 100000

theorem crc16_shift_lt (c : Nat) : crc16_shift c < 65536 := by
  unfold crc16_shift
  split
  · exact Nat.xor_lt_two_pow (n := 16) (Nat.mod_lt _ (by norm_num)) (by norm_num)
  · exact Nat.mod_lt _ (by norm_num)

theorem crc16_shiftN_lt (n : Nat) (c : Nat) (h : c < 65536) : crc16_shiftN n c < 65536 := by
  induction n generalizing c with
  | zero => exact h
  | succ k ih => exact ih _ (crc16_shift_lt c)

theorem crc16_update_lt (c b : Nat) : crc16_update c b < 65536 := by
  unfold crc16_update
  show crc16_shiftN 8 _ < 65536
  unfold crc16_shiftN
  exact crc16_shiftN_lt 7 _ (crc16_shift_lt _)

theorem foldl_crc16_lt (l : List Nat) : ∀ c, c < 65536 → l.foldl crc16_update c < 65536 := by
  induction l with
  | nil => intro c h; exact h
  | cons x xs ih => intro c _; exact ih _ (crc16_update_lt c x)

theorem gcp_crc16_lt (l : List Nat) : gcp_crc16 l < 65536 :=
  foldl_crc16_lt l 0xFFFF (by norm_num)

theorem ofU16_toU16 (c : GcpCommand) : GcpCommand.ofU16 c.toU16 = c := by
  cases c <;> rfl

theorem le16_decode (n : Nat) (h : n < 65536) : n % 256 + 256 * (n / 256 % 256) = n := by
  omega


theorem toU16_lt (c : GcpCommand) : c.toU16 < 65536 := by
  cases c <;> norm_num [GcpCommand.toU16]

/-- Decoding a well-formed wire frame with arbitrary msg-type field `w`,
two parameter bytes and data `d`, provided `w` does not decode to `Ack`. -/
theorem deserialize_raw (w : Nat) (hw : w < 65536)
    (hwa : ¬(GcpCommand.ofU16 w = GcpCommand.Ack)) (p0 p1 : Nat) (d : List Nat)
    (hd : d.length ≤ 65525) :
    deserialize (170 :: 85 ::
        ((le16 (6 + d.length) ++ le16 w ++ [p0, p1] ++ d)
          ++ le16 (gcp_crc16 (le16 (6 + d.length) ++ le16 w ++ [p0, p1] ++ d))))
      = .dok { length := 6 + d.length, msg_type := GcpCommand.ofU16 w,
               parameters := [p0, p1], data := d } := by
  set T := w with hTdef
  have hT : T < 65536 := hw
  set L := 6 + d.length with hLdef
  have hLlt : L < 65536 := by omega
  set body : List Nat := le16 L ++ le16 T ++ [p0, p1] ++ d with hbody
  set c : Nat := gcp_crc16 body with hcdef
  have hclt : c < 65536 := gcp_crc16_lt body
  have hbodylen : body.length = 6 + d.length := by simp [hbody, le16]; omega
  have hbexp : (170 :: 85 :: (body ++ le16 c) : List Nat)
      = ([170, 85, L % 256, L / 256 % 256, T % 256, T / 256 % 256, p0, p1] ++ d)
        ++ [c % 256, c / 256 % 256] := by
    simp [hbody, le16]
  rw [show (170 :: 85 ::
        ((le16 (6 + d.length) ++ le16 w ++ [p0, p1] ++ d)
          ++ le16 (gcp_crc16 (le16 (6 + d.length) ++ le16 w ++ [p0, p1] ++ d))) : List Nat)
      = 170 :: 85 :: (body ++ le16 c) from rfl]
  rw [hbexp]
  set E : List Nat := ([170, 85, L % 256, L / 256 % 256, T % 256, T / 256 % 256, p0, p1] ++ d)
      ++ [c % 256, c / 256 % 256] with hEdef
  have hElen : E.length = 10 + d.length := by simp [hEdef]; omega
  have g2 : E.getD 2 0 = L % 256 := rfl
  have g3 : E.getD 3 0 = L / 256 % 256 := rfl
  have g4 : E.getD 4 0 = T % 256 := rfl
  have g5 : E.getD 5 0 = T / 256 % 256 := rfl
  have hlenfield : E.getD 2 0 + 256 * E.getD 3 0 = L := by
    rw [g2, g3]; exact le16_decode L hLlt
  have hrecvlo : E.getD (E.length - 2) 0 = c % 256 := by
    rw [hElen, hEdef]
    rw [List.getD_append_right _ _ _ _ (by simp; omega)]
    have hidx : 10 + d.length - 2
        - ([170, 85, L % 256, L / 256 % 256, T % 256, T / 256 % 256, p0, p1] ++ d).length = 0 := by
      simp; omega
    rw [hidx]
    rfl
  have hrecvhi : E.getD (E.length - 1) 0 = c / 256 % 256 := by
    rw [hElen, hEdef]
    rw [List.getD_append_right _ _ _ _ (by simp; omega)]
    have hidx : 10 + d.length - 1
        - ([170, 85, L % 256, L / 256 % 256, T % 256, T / 256 % 256, p0, p1] ++ d).length = 1 := by
      simp; omega
    rw [hidx]
    rfl
  have hrecv : E.getD (E.length - 2) 0 + 256 * E.getD (E.length - 1) 0 = c := by
    rw [hrecvlo, hrecvhi]; exact le16_decode c hclt
  have hmsgfield : E.getD 4 0 + 256 * E.getD 5 0 = T := by
    rw [g4, g5]; exact le16_decode T hT
  have hcrcslice : sliceChecked E 2 ((2 + L) % 65536) = some body := by
    have h1 : (2 + L) % 65536 = 2 + L := Nat.mod_eq_of_lt (by omega)
    rw [h1, hEdef]
    unfold sliceChecked
    rw [if_pos ⟨by omega, by simp; omega⟩]
    rw [List.take_left' (by simp; omega)]
    simp [hbody, le16]
  have hps : sliceChecked E 6 8 = some [p0, p1] := by
    unfold sliceChecked
    rw [if_pos ⟨by omega, by rw [hElen]; omega⟩]
    rw [hEdef, List.append_assoc]
    rw [List.take_left' (by simp)]
    rfl
  have hdp : sliceChecked E 8 (8 + d.length) = some d := by
    unfold sliceChecked
    rw [if_pos ⟨by omega, by rw [hElen]; omega⟩]
    rw [hEdef]
    rw [List.take_left' (by simp; omega)]
    rw [List.drop_left' (by simp)]
  have hpdl : (L + (USIZE - 4)) % USIZE = 2 + d.length := by
    unfold USIZE; omega
  have hpe : (6 + (2 + d.length)) % USIZE = 8 + d.length := by
    unfold USIZE; omega
  unfold deserialize
  rw [if_neg (by rw [hElen]; omega)]
  rw [if_neg (not_not_intro ⟨rfl, rfl⟩)]
  rw [hlenfield, hmsgfield]
  simp only []
  have hinc : ¬(E.length < (L + 4) % 65536) := by
    rw [hElen, Nat.mod_eq_of_lt (show L + 4 < 65536 by omega)]
    omega
  rw [if_neg hinc]
  rw [hcrcslice]
  simp only []
  rw [← hcdef]
  rw [hrecv]
  rw [if_neg (not_not_intro rfl)]
  rw [hpdl]
  rw [if_neg (by omega)]
  rw [hpe]
  rw [if_neg hwa]
  rw [if_pos (by omega)]
  rw [hps]
  simp only []
  by_cases hd0 : d = []
  · subst hd0
    rw [if_neg (by simp)]
  · rw [if_pos (by have := List.length_pos.mpr hd0; omega)]
    rw [hdp]

/-- Frame round trip for the constructor shapes with two parameter bytes
and a non-ACK msg type. -/
theorem deserialize_serialize (mt : GcpCommand) (p d : List Nat)
    (hmt : ¬(mt = GcpCommand.Ack)) (hp : p.length = 2) (hd : d.length ≤ 65525) :
    deserialize (GcpFrame.with_data mt p d).serialize = .dok (GcpFrame.with_data mt p d) := by
  match p, hp with
  | [p0, p1], _ =>
  have hwa : ¬(GcpCommand.ofU16 mt.toU16 = GcpCommand.Ack) := by
    rw [ofU16_toU16]; exact hmt
  have hL : (GcpFrame.with_data mt [p0, p1] d).length = 6 + d.length := by
    simp [GcpFrame.with_data]
    omega
  have hproj_mt : (GcpFrame.with_data mt [p0, p1] d).msg_type = mt := rfl
  have hproj_p : (GcpFrame.with_data mt [p0, p1] d).parameters = [p0, p1] := rfl
  have hproj_d : (GcpFrame.with_data mt [p0, p1] d).data = d := rfl
  have hser : (GcpFrame.with_data mt [p0, p1] d).serialize
      = 170 :: 85 ::
        ((le16 (6 + d.length) ++ le16 mt.toU16 ++ [p0, p1] ++ d)
          ++ le16 (gcp_crc16 (le16 (6 + d.length) ++ le16 mt.toU16 ++ [p0, p1] ++ d))) := by
    simp [GcpFrame.serialize, hL, hproj_mt, hproj_p, hproj_d]
  rw [hser, deserialize_raw mt.toU16 (toU16_lt mt) hwa p0 p1 d hd]
  rw [ofU16_toU16]
  unfold GcpFrame.with_data
  have : (4 + ([p0, p1] : List Nat).length % 65536 + d.length % 65536) % 65536
      = 6 + d.length := by simp; omega
  rw [this]

/-- Claim C1 counterexample: the header-only ACK frame built by
`GcpFrame::new` does not round-trip.  `new` sets `parameters = [0, 0]`, but
`deserialize` routes the whole payload of an ACK frame into `data`, so the
decoded frame has `parameters = []` and `data = [0, 0]`: the original
parameters and data fields are not recovered. -/
theorem frame_round_trip_counterexample :
    (GcpFrame.new GcpCommand.Ack).parameters = [0, 0] ∧
    (GcpFrame.new GcpCommand.Ack).data = [] ∧
    deserialize (GcpFrame.new GcpCommand.Ack).serialize
      = .dok { length := 6, msg_type := GcpCommand.Ack, parameters := [], data := [0, 0] } ∧
    ¬(deserialize (GcpFrame.new GcpCommand.Ack).serialize
      = .dok (GcpFrame.new GcpCommand.Ack)) := by
  refine ⟨rfl, rfl, by decide, by decide⟩

/-- Claim C1 (corrected): the round trip
`deserialize (serialize f) = dok f`, with the original msg_type, parameters
and data recovered and the CRC-16 check passing, holds for every frame whose
msg_type is not ACK and whose parameter vector has exactly the two bytes
that all engine-built frames carry (data up to 65525 bytes so the u16
length field does not wrap); for ACK frames the decoder moves the whole
payload into `data`, so the original split is not recovered. -/
theorem frame_round_trip_amended (mt : GcpCommand) (p d : List Nat)
    (hmt : ¬(mt = GcpCommand.Ack)) (hp : p.length = 2) (hd : d.length ≤ 65525) :
    deserialize (GcpFrame.with_data mt p d).serialize
      = .dok (GcpFrame.with_data mt p d) :=
  deserialize_serialize mt p d hmt hp hd

/-- Witness for C1: a concrete GET_STATUS frame with data [1, 2, 3]
round-trips. -/
theorem frame_round_trip_amended_witness :
    deserialize (GcpFrame.with_data GcpCommand.GetStatus [0, 0] [1, 2, 3]).serialize
      = .dok (GcpFrame.with_data GcpCommand.GetStatus [0, 0] [1, 2, 3]) :=
  frame_round_trip_amended GcpCommand.GetStatus [0, 0] [1, 2, 3]
    (by decide) (by decide) (by decide)

/-- Claim C9 (confirmed): `gcp_crc32` is the standard Ethernet/zlib CRC-32
(initial value 0xFFFFFFFF, reflected polynomial 0xEDB88320, final xor
0xFFFFFFFF, all visible in its definition): the empty string hashes to 0 and
the ASCII bytes of the digits 1 to 9 hash to 0xCBF43926. -/
theorem crc32_reference :
    gcp_crc32 [] = 0x00000000 ∧
    gcp_crc32 [0x31, 0x32, 0x33, 0x34, 0x35, 0x36, 0x37, 0x38, 0x39] = 0xCBF43926 := by
  exact ⟨by rfl, by decide⟩

/-- Claim C7 counterexample: the undefined MSG_TYPE value 0x9999 does not
map to a dedicated sentinel: it maps to `Hello`, the very variant that the
defined code 0x0001 maps to, so it is not distinct from every defined
command. -/
theorem unknown_msg_type_counterexample :
    (0x9999 : Nat) ∉ definedCommandCodes ∧
    GcpCommand.ofU16 0x9999 = GcpCommand.Hello ∧
    GcpCommand.ofU16 0x0001 = GcpCommand.Hello := by
  refine ⟨by decide, rfl, rfl⟩

/-- Claim C7 (corrected): decoding a frame whose MSG_TYPE field is not a
defined command code does not fail — but the value maps to the `Hello`
variant (the `From<u16>` default fallback), not to a dedicated unknown
variant: a well-formed frame carrying such a value decodes successfully
with msg_type `Hello`. -/
theorem unknown_msg_type_amended (v : Nat) (hv : v < 65536)
    (h : v ∉ definedCommandCodes) :
    GcpCommand.ofU16 v = GcpCommand.Hello ∧
    deserialize (170 :: 85 :: ((le16 6 ++ le16 v ++ [0, 0])
        ++ le16 (gcp_crc16 (le16 6 ++ le16 v ++ [0, 0]))))
      = .dok { length := 6, msg_type := GcpCommand.Hello,
               parameters := [0, 0], data := [] } := by
  have hhello : GcpCommand.ofU16 v = GcpCommand.Hello := by
    simp only [definedCommandCodes, List.mem_cons, List.not_mem_nil, or_false,
      not_or] at h
    unfold GcpCommand.ofU16
    repeat rw [if_neg (by omega)]
  refine ⟨hhello, ?_⟩
  have hr := deserialize_raw v hv (by rw [hhello]; decide) 0 0 [] (by norm_num)
  rw [hhello] at hr
  simpa using hr

/-- Witness for C7 at the undefined value 0x9999. -/
theorem unknown_msg_type_amended_witness :
    GcpCommand.ofU16 0x9999 = GcpCommand.Hello ∧
    deserialize (170 :: 85 :: ((le16 6 ++ le16 0x9999 ++ [0, 0])
        ++ le16 (gcp_crc16 (le16 6 ++ le16 0x9999 ++ [0, 0]))))
      = .dok { length := 6, msg_type := GcpCommand.Hello,
               parameters := [0, 0], data := [] } :=
  unknown_msg_type_amended 0x9999 (by decide) (by decide)

/-- Claim C4 counterexample: `deserialize` does crash on a 10-byte slice
with preamble 0xAA 0x55, LENGTH field 0 and a matching CRC (CRC-16 of the
empty slice is 0xFFFF, and the last two bytes decode to 0xFFFF): all four
stated checks pass, but `param_data_len = length - 4` underflows in usize
and the subsequent slice indexing panics, so the function does not return a
result, let alone succeed, for this LENGTH < 4 frame. -/
theorem deserialize_taxonomy_counterexample :
    deserialize [170, 85, 0, 0, 0, 0, 0, 0, 255, 255] = .crash ∧
    lengthField [170, 85, 0, 0, 0, 0, 0, 0, 255, 255] = 0 ∧
    crcCalc [170, 85, 0, 0, 0, 0, 0, 0, 255, 255]
      = crcRecv [170, 85, 0, 0, 0, 0, 0, 0, 255, 255] := by
  refine ⟨by decide, by decide, by decide⟩

/-- Claim C4 (corrected): `deserialize` follows the stated failure taxonomy
(short-frame below 10 bytes, bad preamble, incomplete below LENGTH + 4,
CRC-16 over `b[2 .. 2+LENGTH]` against the last two bytes) and succeeds once
all checks pass, provided 4 <= LENGTH <= 65531; but for a CRC-valid frame
whose LENGTH field is below 4 the function panics (usize underflow in
`length as usize - 4` followed by out-of-range slicing) instead of
succeeding, so it is not total. -/
theorem deserialize_taxonomy_amended (b : List Nat) :
    (b.length < 10 → deserialize b = .derr .tooShort) ∧
    (10 ≤ b.length → ¬(b.getD 0 0 = 170 ∧ b.getD 1 0 = 85) →
      deserialize b = .derr .badPreamble) ∧
    (10 ≤ b.length → b.getD 0 0 = 170 → b.getD 1 0 = 85 →
      lengthField b ≤ 65531 → b.length < lengthField b + 4 →
      deserialize b = .derr .incomplete) ∧
    (10 ≤ b.length → b.getD 0 0 = 170 → b.getD 1 0 = 85 →
      lengthField b ≤ 65531 → lengthField b + 4 ≤ b.length →
      ¬(crcCalc b = crcRecv b) →
      deserialize b = .derr (.crcMismatch (crcCalc b) (crcRecv b))) ∧
    (10 ≤ b.length → b.getD 0 0 = 170 → b.getD 1 0 = 85 →
      4 ≤ lengthField b → lengthField b ≤ 65531 → lengthField b + 4 ≤ b.length →
      crcCalc b = crcRecv b → ∃ f, deserialize b = .dok f) ∧
    (10 ≤ b.length → b.getD 0 0 = 170 → b.getD 1 0 = 85 →
      lengthField b < 4 → lengthField b + 4 ≤ b.length →
      crcCalc b = crcRecv b → deserialize b = .crash) := by
  have hLr : lengthField b = b.getD 2 0 + 256 * b.getD 3 0 := rfl
  refine ⟨?_, ?_, ?_, ?_, ?_, ?_⟩
  · intro h
    unfold deserialize
    rw [if_pos h]
  · intro h10 hpre
    unfold deserialize
    rw [if_neg (by omega), if_pos hpre]
  · intro h10 h0 h1 hLle hshort
    unfold deserialize
    rw [if_neg (by omega)]
    rw [if_neg (not_not_intro ⟨h0, h1⟩)]
    simp only []
    rw [if_pos (by rw [Nat.mod_eq_of_lt (by omega)]; omega)]
  · intro h10 h0 h1 hLle hcomp hcrc
    unfold deserialize
    rw [if_neg (by omega)]
    rw [if_neg (not_not_intro ⟨h0, h1⟩)]
    simp only []
    rw [if_neg (by rw [Nat.mod_eq_of_lt (by omega)]; omega)]
    have hslice : sliceChecked b 2 ((2 + (b.getD 2 0 + 256 * b.getD 3 0)) % 65536)
        = some ((b.take (2 + lengthField b)).drop 2) := by
      unfold sliceChecked
      rw [Nat.mod_eq_of_lt (by omega)]
      rw [if_pos ⟨by omega, by omega⟩]
      rw [hLr]
    rw [hslice]
    simp only []
    rw [if_pos ?hneq]
    case hneq =>
      unfold crcCalc crcRecv at hcrc
      exact hcrc
    rfl
  · intro h10 h0 h1 hL4 hLle hcomp hcrc
    unfold deserialize
    rw [if_neg (by omega)]
    rw [if_neg (not_not_intro ⟨h0, h1⟩)]
    simp only []
    rw [if_neg (by rw [Nat.mod_eq_of_lt (by omega)]; omega)]
    have hslice : sliceChecked b 2 ((2 + (b.getD 2 0 + 256 * b.getD 3 0)) % 65536)
        = some ((b.take (2 + lengthField b)).drop 2) := by
      unfold sliceChecked
      rw [Nat.mod_eq_of_lt (by omega)]
      rw [if_pos ⟨by omega, by omega⟩]
      rw [hLr]
    rw [hslice]
    simp only []
    rw [if_neg ?heq]
    case heq =>
      unfold crcCalc crcRecv at hcrc
      exact not_not_intro hcrc
    have hpdl : (b.getD 2 0 + 256 * b.getD 3 0 + (USIZE - 4)) % USIZE
        = lengthField b - 4 := by
      unfold USIZE
      rw [hLr]
      omega
    rw [hpdl]
    by_cases hpz : lengthField b - 4 = 0
    · rw [if_pos hpz]
      exact ⟨_, rfl⟩
    · rw [if_neg hpz]
      have hpe : (6 + (lengthField b - 4)) % USIZE = lengthField b + 2 := by
        unfold USIZE
        omega
      rw [hpe]
      by_cases hack : GcpCommand.ofU16 (b.getD 4 0 + 256 * b.getD 5 0) = GcpCommand.Ack
      · rw [if_pos hack]
        have hsl : sliceChecked b 6 (lengthField b + 2)
            = some ((b.take (lengthField b + 2)).drop 6) := by
          unfold sliceChecked
          rw [if_pos ⟨by omega, by omega⟩]
        rw [hsl]
        exact ⟨_, rfl⟩
      · rw [if_neg hack]
        by_cases h2p : 2 ≤ lengthField b - 4
        · rw [if_pos h2p]
          have hsl : sliceChecked b 6 8 = some ((b.take 8).drop 6) := by
            unfold sliceChecked
            rw [if_pos ⟨by omega, by omega⟩]
          rw [hsl]
          simp only []
          by_cases h2q : 2 < lengthField b - 4
          · rw [if_pos h2q]
            have hsl2 : sliceChecked b 8 (lengthField b + 2)
                = some ((b.take (lengthField b + 2)).drop 8) := by
              unfold sliceChecked
              rw [if_pos ⟨by omega, by omega⟩]
            rw [hsl2]
            exact ⟨_, rfl⟩
          · rw [if_neg h2q]
            exact ⟨_, rfl⟩
        · rw [if_neg h2p]
          have hsl : sliceChecked b 6 (lengthField b + 2)
              = some ((b.take (lengthField b + 2)).drop 6) := by
            unfold sliceChecked
            rw [if_pos ⟨by omega, by omega⟩]
          rw [hsl]
          exact ⟨_, rfl⟩
  · intro h10 h0 h1 hL4 hcomp hcrc
    unfold deserialize
    rw [if_neg (by omega)]
    rw [if_neg (not_not_intro ⟨h0, h1⟩)]
    simp only []
    rw [if_neg (by rw [Nat.mod_eq_of_lt (by omega)]; omega)]
    have hslice : sliceChecked b 2 ((2 + (b.getD 2 0 + 256 * b.getD 3 0)) % 65536)
        = some ((b.take (2 + lengthField b)).drop 2) := by
      unfold sliceChecked
      rw [Nat.mod_eq_of_lt (by omega)]
      rw [if_pos ⟨by omega, by omega⟩]
      rw [hLr]
    rw [hslice]
    simp only []
    rw [if_neg ?heq2]
    case heq2 =>
      unfold crcCalc crcRecv at hcrc
      exact not_not_intro hcrc
    have hpdl : (b.getD 2 0 + 256 * b.getD 3 0 + (USIZE - 4)) % USIZE
        = USIZE - 4 + lengthField b := by
      unfold USIZE
      rw [hLr]
      omega
    rw [hpdl]
    rw [if_neg (by unfold USIZE; omega)]
    have hpe : (6 + (USIZE - 4 + lengthField b)) % USIZE = lengthField b + 2 := by
      unfold USIZE
      omega
    rw [hpe]
    by_cases hack : GcpCommand.ofU16 (b.getD 4 0 + 256 * b.getD 5 0) = GcpCommand.Ack
    · rw [if_pos hack]
      have hsl : sliceChecked b 6 (lengthField b + 2) = none := by
        unfold sliceChecked
        rw [if_neg (by omega)]
      rw [hsl]
    · rw [if_neg hack]
      rw [if_pos (by unfold USIZE; omega)]
      have hsl : sliceChecked b 6 8 = some ((b.take 8).drop 6) := by
        unfold sliceChecked
        rw [if_pos ⟨by omega, by omega⟩]
      rw [hsl]
      simp only []
      rw [if_pos (by unfold USIZE; omega)]
      have hsl2 : sliceChecked b 8 (lengthField b + 2) = none := by
        unfold sliceChecked
        rw [if_neg (by omega)]
      rw [hsl2]


/-- Witness for C4: the serialized HELLO request frame
(LENGTH 6, CRC 0xF545) decodes successfully. -/
theorem deserialize_taxonomy_amended_witness :
    ∃ f, deserialize [170, 85, 6, 0, 1, 0, 0, 0, 69, 245] = .dok f :=
  (deserialize_taxonomy_amended [170, 85, 6, 0, 1, 0, 0, 0, 69, 245]).2.2.2.2.1
    (by decide) (by decide) (by decide) (by decide) (by decide) (by decide) (by decide)

/-- Claim C10 (confirmed): in `send_hello`, every ACK response whose
concatenated parameters+data payload has at least 8 bytes returns a record
parsed from the payload bytes (after the 2-byte echo skip when present),
and a shorter payload is an error — so the fabricated-HardwareInfo fallback
branch (manufacture_date 0x0A17, serial 1000, board 0x01, revision 0, chip
0x40, features 0x03), which requires reaching the 15-byte check with the
8-byte check failed, is unreachable, and no Ok result carries it unless the
device bytes parse to those values. -/
theorem hello_fallback_unreachable (resp : GcpFrame)
    (hack : resp.msg_type = GcpCommand.Ack) :
    (8 ≤ (resp.parameters ++ resp.data).length →
      processHelloResponse resp
        = .ok (parse_hardware_data
            ((resp.parameters ++ resp.data).drop
              (hello_hw_start (resp.parameters ++ resp.data))))) ∧
    ((resp.parameters ++ resp.data).length < 8 →
      processHelloResponse resp = .error "HELLO ACK response has insufficient data") := by
  constructor
  · intro h8
    have hdroplen : 8 ≤ ((resp.parameters ++ resp.data).drop
        (hello_hw_start (resp.parameters ++ resp.data))).length := by
      rw [List.length_drop]
      unfold hello_hw_start
      split
      · omega
      · omega
    unfold processHelloResponse
    rw [if_pos hack]
    rw [if_pos ⟨h8, hdroplen⟩]
  · intro h8
    unfold processHelloResponse
    rw [if_pos hack]
    rw [if_neg (by push_neg; intro h; omega)]
    rw [if_neg (by omega)]

/-- Witness for C10: a concrete 8-byte ACK payload is parsed, not
fabricated. -/
theorem hello_fallback_unreachable_witness :
    processHelloResponse
        { length := 12, msg_type := GcpCommand.Ack, parameters := [],
          data := [0x17, 0x0A, 1, 0, 1, 0, 0x40, 3] }
      = .ok (parse_hardware_data [0x17, 0x0A, 1, 0, 1, 0, 0x40, 3]) :=
  (hello_fallback_unreachable _ (by decide)).1 (by decide)

/-- Claim C2 counterexample: for a GET_FW_VER ACK whose 12-byte
concatenated payload starts with bytes 255 255 (not the request MSG_TYPE
05 20 little-endian), the claim prescribes parsing from offset 0, yielding
version 255.255.1; the code instead skips 6 bytes unconditionally and
returns version 5.6.7 — the skip is not guarded by the echoed-command
comparison the claim states, and the two results differ. -/
theorem ack_prefix_detection_counterexample :
    processFwVersionResponse
        { length := 16, msg_type := GcpCommand.Ack, parameters := [],
          data := [255, 255, 1, 2, 3, 4, 5, 6, 7, 8, 9, 10] }
      = .ok { fw_version_major := 5, fw_version_minor := 6, fw_version_patch := 7,
              fw_version_suffix := [8, 9, 10] } ∧
    claimedFwVersionResponse
        { length := 16, msg_type := GcpCommand.Ack, parameters := [],
          data := [255, 255, 1, 2, 3, 4, 5, 6, 7, 8, 9, 10] }
      = .ok { fw_version_major := 255, fw_version_minor := 255, fw_version_patch := 1,
              fw_version_suffix := [2, 3, 4] } ∧
    ({ fw_version_major := 5, fw_version_minor := 6, fw_version_patch := 7,
       fw_version_suffix := [8, 9, 10] } : GcpFwVersionData)
      ≠ { fw_version_major := 255, fw_version_minor := 255, fw_version_patch := 1,
          fw_version_suffix := [2, 3, 4] } := by
  refine ⟨by rfl, by rfl, by decide⟩

/-- Claim C2 (corrected): the engine concatenates the decoded parameters
and data of an ACK response, but its prefix handling differs from the
claim: `send_hello` skips 2 bytes (not 6) iff the concatenation has at
least 10 bytes (8 expected + 2) and starts with 01 00; `get_status` skips
2 bytes iff at least 17 bytes (15 + 2) and starts with 01 20;
`get_fw_version` takes bytes 6..12 iff at least 12 bytes, without
inspecting the leading bytes; in each function a payload too short for the
expected record is an insufficient-data error. -/
theorem ack_prefix_detection_amended (resp : GcpFrame)
    (hack : resp.msg_type = GcpCommand.Ack) :
    (processHelloResponse resp
      = (if 10 ≤ (resp.parameters ++ resp.data).length
            ∧ (resp.parameters ++ resp.data).getD 0 0 = 0x01
            ∧ (resp.parameters ++ resp.data).getD 1 0 = 0x00 then
          .ok (parse_hardware_data ((resp.parameters ++ resp.data).drop 2))
        else if 8 ≤ (resp.parameters ++ resp.data).length then
          .ok (parse_hardware_data (resp.parameters ++ resp.data))
        else .error "HELLO ACK response has insufficient data")) ∧
    (processStatusResponse resp
      = (if 17 ≤ (resp.parameters ++ resp.data).length
            ∧ (resp.parameters ++ resp.data).getD 0 0 = 0x01
            ∧ (resp.parameters ++ resp.data).getD 1 0 = 0x20 then
          .ok (parse_status_data ((resp.parameters ++ resp.data).drop 2))
        else if 15 ≤ (resp.parameters ++ resp.data).length then
          .ok (parse_status_data (resp.parameters ++ resp.data))
        else .error "Invalid status response: insufficient data")) ∧
    (processFwVersionResponse resp
      = (if 12 ≤ (resp.parameters ++ resp.data).length then
          .ok (parse_fw_version_data
            (((resp.parameters ++ resp.data).drop 6).take 6))
        else .error "Invalid fw version response: insufficient data")) := by
  refine ⟨?_, ?_, ?_⟩
  · unfold processHelloResponse hello_hw_start
    rw [if_pos hack]
    by_cases hc : 10 ≤ (resp.parameters ++ resp.data).length
        ∧ (resp.parameters ++ resp.data).getD 0 0 = 0x01
        ∧ (resp.parameters ++ resp.data).getD 1 0 = 0x00
    · rw [if_pos hc, if_pos hc]
      rw [if_pos ⟨by omega, by rw [List.length_drop]; omega⟩]
    · rw [if_neg hc, if_neg hc]
      by_cases h8 : 8 ≤ (resp.parameters ++ resp.data).length
      · rw [if_pos h8]
        rw [if_pos ⟨h8, by rw [List.length_drop]; omega⟩]
        rw [List.drop_zero]
      · rw [if_neg h8]
        rw [if_neg (by push_neg; intro h; omega)]
        rw [if_neg (by omega)]
  · unfold processStatusResponse status_start
    rw [if_pos hack]
    by_cases hc : 17 ≤ (resp.parameters ++ resp.data).length
        ∧ (resp.parameters ++ resp.data).getD 0 0 = 0x01
        ∧ (resp.parameters ++ resp.data).getD 1 0 = 0x20
    · rw [if_pos hc, if_pos hc]
      rw [if_pos (by rw [List.length_drop]; omega)]
    · rw [if_neg hc, if_neg hc]
      by_cases h15 : 15 ≤ (resp.parameters ++ resp.data).length
      · rw [if_pos (by rw [List.length_drop]; omega), if_pos h15]
        rw [List.drop_zero]
      · rw [if_neg (by rw [List.length_drop]; omega), if_neg h15]
  · unfold processFwVersionResponse
    rw [if_pos hack]

/-- Witness for C2: a 21-byte GET_STATUS ACK payload starting 01 20 is
parsed from offset 2. -/
theorem ack_prefix_detection_amended_witness :
    processStatusResponse
        { length := 21, msg_type := GcpCommand.Ack, parameters := [],
          data := [0x01, 0x20, 0, 0, 0, 0, 80, 1, 0xE0, 0x07, 255, 0, 0,
                   25, 10, 22, 2, 17, 0, 2, 0] }
      = .ok (parse_status_data [0, 0, 0, 0, 80, 1, 0xE0, 0x07, 255, 0, 0,
                   25, 10, 22, 2, 17, 0, 2, 0]) := by
  have h := (ack_prefix_detection_amended
      { length := 21, msg_type := GcpCommand.Ack, parameters := [],
        data := [0x01, 0x20, 0, 0, 0, 0, 80, 1, 0xE0, 0x07, 255, 0, 0,
                 25, 10, 22, 2, 17, 0, 2, 0] } (by decide)).2.1
  rw [h]
  rfl

/-- Claim C6 counterexample: a NACK response to HELLO carrying error code
INVALID_PARAM (0x0007 in its trailing bytes) does not surface a
DeviceError: `send_hello` has no NACK handling at all and parses the
8-byte NACK payload (echoed command, sequence number, error code) as
hardware data, returning Ok. -/
theorem nack_classification_counterexample :
    send_hello_model [Attempt.recv
        { length := 12, msg_type := GcpCommand.Nack,
          parameters := [3, 0], data := [0, 0, 0, 0, 7, 0] }]
      = .ok { manufacture_date := 3, serial_number := 0, board_type := 0,
              hw_revision := 0, chip_model := 7, features := 0 } := by
  rfl

/-- Claim C6 (corrected): the engine has no NACK-specific classification:
a NACK response is handled like any other non-ACK frame, and the loop
returns on the very attempt that received it, regardless of the error code
and of how many attempts remain — there is no retry driven by CRC, TIMEOUT,
BUSY, SEQ or MRAM, and no DeviceError: `send_hello` parses a NACK payload
of at least 8 bytes as HardwareInfo and returns Ok, `get_fw_version`
likewise parses the first 6 bytes of a NACK payload of at least 6 bytes as
FwVersion and returns Ok, and only `get_status` fails, immediately, with
an insufficient-data error for the 8-byte NACK shape (it needs 15). -/
theorem nack_classification_amended (resp : GcpFrame) (rest : List Attempt)
    (hn : resp.msg_type = GcpCommand.Nack) :
    send_hello_model (Attempt.recv resp :: rest) = processHelloResponse resp ∧
    get_status_model (Attempt.recv resp :: rest) = processStatusResponse resp ∧
    get_fw_version_model (Attempt.recv resp :: rest) = processFwVersionResponse resp ∧
    (8 ≤ (resp.parameters ++ resp.data).length →
      processHelloResponse resp
        = .ok (parse_hardware_data (resp.parameters ++ resp.data))) ∧
    ((resp.parameters ++ resp.data).length < 15 →
      processStatusResponse resp = .error "Invalid status response: insufficient data") ∧
    (6 ≤ (resp.parameters ++ resp.data).length →
      processFwVersionResponse resp
        = .ok (parse_fw_version_data (resp.parameters ++ resp.data))) := by
  have hne : ¬(resp.msg_type = GcpCommand.Ack) := by
    rw [hn]; decide
  refine ⟨rfl, rfl, rfl, ?_, ?_, ?_⟩
  · intro h8
    unfold processHelloResponse
    rw [if_neg hne, if_pos h8]
  · intro h15
    unfold processStatusResponse
    rw [if_neg hne, if_neg (by omega)]
  · intro h6
    unfold processFwVersionResponse
    rw [if_neg hne, if_pos h6]

/-- Witness for C6: on a concrete NACK, `get_status` returns the
insufficient-data error at the first attempt. -/
theorem nack_classification_amended_witness :
    get_status_model [Attempt.recv
        { length := 12, msg_type := GcpCommand.Nack,
          parameters := [3, 0], data := [0, 0, 0, 0, 7, 0] }]
      = .error "Invalid status response: insufficient data" := by
  have h := nack_classification_amended
      { length := 12, msg_type := GcpCommand.Nack,
        parameters := [3, 0], data := [0, 0, 0, 0, 7, 0] } [] (by decide)
  exact h.2.1.trans (h.2.2.2.2.1 (by decide))

theorem sendChunksLoop_ok (fw : List Nat) (C : Nat) (o : FwOracle)
    (hchunks : ∀ i, o.chunkResult i = .ok ()) :
    ∀ k i, sendChunksLoop fw C o k i
      = (.ok (), (List.range k).map (fun j => ((i + j) * C, fwChunk fw C (i + j)))) := by
  intro k
  induction k with
  | zero => intro i; rfl
  | succ m ih =>
    intro i
    unfold sendChunksLoop
    rw [hchunks i]
    simp only []
    rw [ih (i + 1)]
    simp only [List.range_succ_eq_map, List.map_cons, List.map_map]
    apply congrArg (Prod.mk (Except.ok ()))
    simp only [Nat.add_zero]
    refine List.cons_eq_cons.mpr ⟨rfl, ?_⟩
    apply List.map_congr_left
    intro j hj
    simp only [Function.comp_apply, Nat.succ_eq_add_one]
    have hi : i + 1 + j = i + (j + 1) := by omega
    rw [hi]

theorem chunk_sum (C : Nat) (hC : 0 < C) :
    ∀ S, 0 < S →
      ((List.range (totalChunks S C)).map (fun i => min C (S - i * C))).sum = S := by
  intro S
  induction S using Nat.strong_induction_on with
  | _ S ih =>
    intro hS
    by_cases hSC : S ≤ C
    · have hn : totalChunks S C = 1 := by
        unfold totalChunks
        exact Nat.div_eq_of_lt_le (by omega) (by omega)
      rw [hn]
      rw [show List.range 1 = [0] from rfl]
      simp only [List.map_cons, List.map_nil, List.sum_cons, List.sum_nil,
        Nat.zero_mul, Nat.sub_zero, Nat.add_zero]
      omega
    · have hn : totalChunks S C = totalChunks (S - C) C + 1 := by
        unfold totalChunks
        have e1 : S - C + C - 1 = S - 1 := by omega
        have e2 : S + C - 1 = (S - 1) + C := by omega
        rw [e1, e2, Nat.add_div_right _ hC]
      rw [hn]
      rw [List.range_succ_eq_map]
      simp only [List.map_cons, List.map_map, List.sum_cons]
      have hmap : (List.range (totalChunks (S - C) C)).map
          ((fun i => min C (S - i * C)) ∘ (· + 1))
          = (List.range (totalChunks (S - C) C)).map (fun i => min C ((S - C) - i * C)) := by
        apply List.map_congr_left
        intro j hj
        simp only [Function.comp_apply]
        have ht : (j + 1) * C = j * C + C := by ring
        rw [ht]
        congr 1
        omega
      rw [hmap]
      rw [ih (S - C) (by omega) (by omega)]
      simp only [Nat.zero_mul, Nat.sub_zero]
      omega

theorem sendChunksLoop_trace (fw : List Nat) (C : Nat) (o : FwOracle)
    (hchunks : ∀ i, o.chunkResult i = .ok ()) :
    sendChunksLoop fw C o (totalChunks fw.length C) 0 = (.ok (), fwChunks fw C) := by
  rw [sendChunksLoop_ok fw C o hchunks]
  unfold fwChunks
  refine congrArg (Prod.mk (Except.ok ())) ?_
  apply List.map_congr_left
  intro j hj
  rw [Nat.zero_add]

theorem fwChunks_length (fw : List Nat) (C : Nat) :
    (fwChunks fw C).length = totalChunks fw.length C := by
  simp [fwChunks]

theorem fwChunks_getD (fw : List Nat) (C : Nat) (i : Nat)
    (h : i < (fwChunks fw C).length) :
    (fwChunks fw C).getD i (0, []) = (i * C, fwChunk fw C i) := by
  rw [List.getD_eq_getElem _ _ h]
  simp [fwChunks]

theorem fwChunk_length (fw : List Nat) (C : Nat) (i : Nat) :
    (fwChunk fw C i).length = min C (fw.length - i * C) := by
  simp [fwChunk]

theorem totalChunks_pred (S C : Nat) (hC : 0 < C) (hS : 0 < S) (i : Nat)
    (h : i + 1 < totalChunks S C) : (i + 1) * C < S := by
  have e2 : S + C - 1 = (S - 1) + C := by omega
  have hc : totalChunks S C = (S - 1) / C + 1 := by
    unfold totalChunks
    rw [e2, Nat.add_div_right _ hC]
  have hi : i + 1 ≤ (S - 1) / C := by omega
  have := Nat.mul_le_mul_right C hi
  have := Nat.div_mul_le_self (S - 1) C
  omega

theorem fwChunks_sum (fw : List Nat) (C : Nat) (hC : 0 < C) (hS : 0 < fw.length) :
    ((fwChunks fw C).map (fun c => c.2.length)).sum = fw.length := by
  unfold fwChunks
  rw [List.map_map]
  have hfun : ((fun c : Nat × List Nat => c.2.length)
        ∘ (fun i => (i * C, fwChunk fw C i)))
      = fun i => min C (fw.length - i * C) := by
    funext i
    simp [Function.comp, fwChunk]
  rw [hfun]
  exact chunk_sum C hC fw.length hS

/-- The chunk count of a sub-2^32 image fits in u32, so the `as u32` cast
of `total_chunks` is the identity there. -/
theorem totalChunks_lt_u32 (S C : Nat) (hS : S < U32) (hC : 0 < C) :
    totalChunks S C < U32 := by
  unfold totalChunks
  rw [Nat.div_lt_iff_lt_mul hC]
  unfold U32 at hS ⊢
  omega

/-- When the u32-truncated chunk count is zero the transfer loop sends
nothing, whatever the image contents. -/
theorem model_trace_of_chunks_zero (fw : List Nat) (C : Nat) (o : FwOracle)
    (hstart : o.startResult = .ok ())
    (h0 : totalChunks (fw.length % U32) C % U32 = 0) :
    (gcp_firmware_update_model fw C o).2 = [] := by
  unfold gcp_firmware_update_model
  rw [hstart]
  simp only []
  rw [h0]
  rcases hend : o.endResult with e | b
  · rfl
  · cases b <;> rfl

/-- Claim C3 counterexample: a firmware image of exactly 2^32 zero bytes
(size S = 2^32 > 0) makes the transfer loop send zero FW_DATA chunks, not
the `ceil(S/2036) > 0` the claim requires, because
`total_bytes = firmware_data.len() as u32` truncates the size to 0 and the
chunk count is computed from the truncated value: the trace is empty even
though every send would be acknowledged, and the sum of chunk byte-lengths
is 0, not S. -/
theorem firmware_chunking_counterexample :
    0 < (List.replicate (2 ^ 32) 0 : List Nat).length ∧
    (gcp_firmware_update_model (List.replicate (2 ^ 32) 0) 2036
        { startResult := .ok (), chunkResult := fun _ => .ok (),
          endResult := .ok true }).2 = [] ∧
    ¬(((List.replicate (2 ^ 32) 0 : List Nat).length + 2036 - 1) / 2036 = 0) := by
  refine ⟨?_, ?_, ?_⟩
  · rw [List.length_replicate]
    norm_num
  · apply model_trace_of_chunks_zero
    · rfl
    · rw [List.length_replicate]
      decide
  · rw [List.length_replicate]
    decide

/-- Claim C3 (corrected): for every firmware image of size S with
0 < S < 2^32 and chunk size C > 0, when the device acknowledges the start
command and every chunk, the transfer loop of `gcp_firmware_update` sends
exactly `ceil(S/C) = (S + C - 1) / C` FW_DATA chunks, in strictly
increasing order of offset, the i-th chunk starting at in-image offset
`i * C`, every chunk except possibly the last having exactly C bytes, and
the chunk byte-lengths summing to S.  The size bound is necessary: the
program computes the chunk count from `firmware_data.len() as u32`, so for
images of 2^32 bytes or more it sends `ceil((S mod 2^32)/C)` chunks, not
`ceil(S/C)`.  (The Tauri command instantiates C with
`GCP_RECOMMENDED_CHUNK_SIZE = 2036`.) -/
theorem firmware_chunking (fw : List Nat) (C : Nat) (o : FwOracle)
    (hS : 0 < fw.length) (hC : 0 < C) (hsize : fw.length < U32)
    (hstart : o.startResult = .ok ()) (hchunks : ∀ i, o.chunkResult i = .ok ()) :
    (gcp_firmware_update_model fw C o).2 = fwChunks fw C ∧
    (fwChunks fw C).length = (fw.length + C - 1) / C ∧
    (∀ i, i < (fwChunks fw C).length →
      ((fwChunks fw C).getD i (0, [])).1 = i * C) ∧
    (∀ i j, i < j → j < (fwChunks fw C).length →
      ((fwChunks fw C).getD i (0, [])).1 < ((fwChunks fw C).getD j (0, [])).1) ∧
    (∀ i, i + 1 < (fwChunks fw C).length →
      ((fwChunks fw C).getD i (0, [])).2.length = C) ∧
    ((fwChunks fw C).map (fun c => c.2.length)).sum = fw.length := by
  refine ⟨?_, fwChunks_length fw C, ?_, ?_, ?_, fwChunks_sum fw C hC hS⟩
  · unfold gcp_firmware_update_model
    rw [hstart]
    simp only []
    rw [Nat.mod_eq_of_lt hsize]
    rw [Nat.mod_eq_of_lt (totalChunks_lt_u32 fw.length C hsize hC)]
    rw [sendChunksLoop_trace fw C o hchunks]
    rcases hend : o.endResult with e | b
    · rfl
    · cases b <;> rfl
  · intro i hi
    rw [fwChunks_getD fw C i hi]
  · intro i j hij hj
    rw [fwChunks_getD fw C i (by omega), fwChunks_getD fw C j hj]
    simp only []
    exact Nat.mul_lt_mul_of_lt_of_le hij (le_refl C) hC
  · intro i hi
    rw [fwChunks_getD fw C i (by omega)]
    simp only []
    rw [fwChunk_length]
    rw [fwChunks_length] at hi
    have hlt := totalChunks_pred fw.length C hC hS i hi
    have hm : (i + 1) * C = i * C + C := by ring
    omega

/-- Witness for C3: a 5-byte image with chunk size 2 produces the
canonical 3-chunk trace with lengths summing to 5. -/
theorem firmware_chunking_witness :
    (gcp_firmware_update_model [1, 2, 3, 4, 5] 2
        { startResult := .ok (), chunkResult := fun _ => .ok (),
          endResult := .ok true }).2
      = fwChunks [1, 2, 3, 4, 5] 2 ∧
    ((fwChunks [1, 2, 3, 4, 5] 2).map (fun c => c.2.length)).sum = 5 := by
  have h := firmware_chunking [1, 2, 3, 4, 5] 2
      { startResult := .ok (), chunkResult := fun _ => .ok (),
        endResult := .ok true }
      (by decide) (by decide) (by norm_num [U32]) rfl (fun _ => rfl)
  exact ⟨h.1, h.2.2.2.2.2.trans rfl⟩

/-- Claim C5 (confirmed): when the FW_END exchange reports a CRC-32
mismatch (`end_firmware_update` returns Ok(false)), `gcp_firmware_update`
returns a normal `FirmwareUpdateResult` with `success = false` and
`crc32_match = false` — not an error — and the FW_DATA trace is exactly the
canonical partition, each offset occurring exactly once: nothing is re-sent
and the transfer is not retried.  The image is taken below 2^32 bytes so
the u32 truncation of `firmware_data.len()` and the u32 accumulation of
`bytes_sent` are exact; the mismatch handling itself is the same in either
regime, since it runs after the transfer loop and returns directly. -/
theorem fw_end_crc_mismatch (fw : List Nat) (o : FwOracle)
    (hS : 0 < fw.length) (hsize : fw.length < U32)
    (hstart : o.startResult = .ok ()) (hchunks : ∀ i, o.chunkResult i = .ok ())
    (hend : o.endResult = .ok false) :
    gcp_firmware_update_model fw GCP_RECOMMENDED_CHUNK_SIZE o
      = (.ok { success := false,
               message := "Firmware verification failed - CRC32 mismatch",
               crc32_match := false,
               total_chunks := totalChunks fw.length GCP_RECOMMENDED_CHUNK_SIZE,
               total_bytes := fw.length },
         fwChunks fw GCP_RECOMMENDED_CHUNK_SIZE) ∧
    ((fwChunks fw GCP_RECOMMENDED_CHUNK_SIZE).map Prod.fst).Nodup := by
  constructor
  · unfold gcp_firmware_update_model
    rw [hstart]
    simp only []
    rw [Nat.mod_eq_of_lt hsize]
    rw [Nat.mod_eq_of_lt
      (totalChunks_lt_u32 fw.length GCP_RECOMMENDED_CHUNK_SIZE hsize (by decide))]
    rw [sendChunksLoop_trace fw GCP_RECOMMENDED_CHUNK_SIZE o hchunks]
    simp only []
    rw [hend]
    simp only []
    rw [fwChunks_sum fw GCP_RECOMMENDED_CHUNK_SIZE (by decide) hS]
    rw [Nat.mod_eq_of_lt hsize]
  · unfold fwChunks
    rw [List.map_map]
    have hfun : (Prod.fst ∘ fun i : Nat =>
          (i * GCP_RECOMMENDED_CHUNK_SIZE, fwChunk fw GCP_RECOMMENDED_CHUNK_SIZE i))
        = fun i => i * GCP_RECOMMENDED_CHUNK_SIZE := by
      funext i
      rfl
    rw [hfun]
    exact (List.nodup_range _).map
      (fun a b hab => by
        unfold GCP_RECOMMENDED_CHUNK_SIZE at hab
        omega)

/-- Witness for C5: a 1-byte image whose FW_END reports a mismatch. -/
theorem fw_end_crc_mismatch_witness :
    gcp_firmware_update_model [9] GCP_RECOMMENDED_CHUNK_SIZE
        { startResult := .ok (), chunkResult := fun _ => .ok (),
          endResult := .ok false }
      = (.ok { success := false,
               message := "Firmware verification failed - CRC32 mismatch",
               crc32_match := false, total_chunks := 1, total_bytes := 1 },
         fwChunks [9] GCP_RECOMMENDED_CHUNK_SIZE) :=
  (fw_end_crc_mismatch [9]
      { startResult := .ok (), chunkResult := fun _ => .ok (),
        endResult := .ok false }
      (by decide) (by norm_num [U32]) rfl (fun _ => rfl) rfl).1

theorem find_preamble_cons_zero (l : List Nat) (h : find_preamble l = none) :
    find_preamble (0 :: l) = none := by
  cases l with
  | nil => rfl
  | cons b t =>
    unfold find_preamble
    rw [if_neg (by simp)]
    rw [h]
    rfl

theorem find_preamble_replicate_zero :
    ∀ n, find_preamble (List.replicate n 0) = none := by
  intro n
  induction n with
  | zero => rfl
  | succ m ih =>
    rw [List.replicate_succ]
    exact find_preamble_cons_zero _ ih

theorem find_preamble_replicate_zero_aa :
    ∀ n, find_preamble (List.replicate n 0 ++ [170]) = none := by
  intro n
  induction n with
  | zero => rfl
  | succ m ih =>
    rw [List.replicate_succ, List.cons_append]
    exact find_preamble_cons_zero _ ih

theorem find_preamble_append (noise rest' : List Nat)
    (h : find_preamble noise = none) :
    find_preamble (noise ++ 170 :: 85 :: rest') = some noise.length := by
  induction noise with
  | nil => rfl
  | cons a l ih =>
    cases l with
    | nil =>
      show find_preamble (a :: 170 :: 85 :: rest') = some 1
      unfold find_preamble
      rw [if_neg (by simp)]
      rfl
    | cons b t =>
      have h' : ¬(a = 170 ∧ b = 85) ∧ find_preamble (b :: t) = none := by
        unfold find_preamble at h
        by_cases hc : a = 170 ∧ b = 85
        · rw [if_pos hc] at h
          exact absurd h (by simp)
        · rw [if_neg hc] at h
          refine ⟨hc, ?_⟩
          cases hfp : find_preamble (b :: t) with
          | none => rfl
          | some k =>
            rw [hfp] at h
            exact absurd h (by simp)
      show find_preamble (a :: b :: (t ++ 170 :: 85 :: rest')) = some (a :: b :: t).length
      unfold find_preamble
      rw [if_neg h'.1]
      rw [show find_preamble (b :: (t ++ 170 :: 85 :: rest')) = some (b :: t).length
        from ih h'.2]
      rfl

theorem receive_clear (buf r : List Nat) (e : Nat) (rest : List (List Nat))
    (hr : ¬(r.length = 0)) (hnp : find_preamble (buf ++ r) = none)
    (hlen : 1000 < (buf ++ r).length) :
    receive_loop buf false e (r :: rest) = receive_loop [] false e rest := by
  show (match receive_step buf false e r with
    | .done res => res
    | .cont b f e1 => receive_loop b f e1 rest) = receive_loop [] false e rest
  unfold receive_step
  rw [if_neg hr]
  simp only []
  rw [if_neg (show ¬(false = true) by simp)]
  rw [hnp]
  simp only []
  rw [if_pos hlen]

theorem receive_single_read (mt : GcpCommand) (p d noise : List Nat)
    (rest : List (List Nat))
    (hmt : ¬(mt = GcpCommand.Ack)) (hp : p.length = 2) (hd : d.length ≤ 65525)
    (hnoise : find_preamble noise = none) :
    receive_loop [] false 0
        ((noise ++ (GcpFrame.with_data mt p d).serialize) :: rest)
      = .rok (GcpFrame.with_data mt p d) := by
  match p, hp with
  | [p0, p1], _ =>
  set f := GcpFrame.with_data mt [p0, p1] d with hf
  have hL : f.length = 6 + d.length := by
    simp [hf, GcpFrame.with_data]
    omega
  have hshape : f.serialize = 170 :: 85 ::
      ((le16 f.length ++ le16 mt.toU16 ++ [p0, p1] ++ d)
        ++ le16 (gcp_crc16 (le16 f.length ++ le16 mt.toU16 ++ [p0, p1] ++ d))) := rfl
  have htaillen : ((le16 f.length ++ le16 mt.toU16 ++ [p0, p1] ++ d)
      ++ le16 (gcp_crc16 (le16 f.length ++ le16 mt.toU16 ++ [p0, p1] ++ d))).length
      = 8 + d.length := by
    simp [le16]
    omega
  show (match receive_step [] false 0 (noise ++ f.serialize) with
    | .done res => res
    | .cont b fd e1 => receive_loop b fd e1 rest) = .rok f
  set X : List Nat := (le16 f.length ++ le16 mt.toU16 ++ [p0, p1] ++ d)
      ++ le16 (gcp_crc16 (le16 f.length ++ le16 mt.toU16 ++ [p0, p1] ++ d)) with hX
  have hXl : (170 :: 85 :: X : List Nat).length = 10 + d.length := by
    rw [List.length_cons, List.length_cons, htaillen]
    omega
  unfold receive_step
  rw [if_neg (by
    rw [List.length_append, hshape]
    simp)]
  simp only []
  rw [if_neg (show ¬(false = true) by simp)]
  rw [List.nil_append]
  rw [hshape]
  rw [find_preamble_append noise _ hnoise]
  simp only []
  rw [List.drop_left]
  have hexp : (170 :: 85 :: X : List Nat).getD 2 0
      + 256 * (170 :: 85 :: X : List Nat).getD 3 0 = f.length := by
    have g2 : (170 :: 85 :: X : List Nat).getD 2 0 = f.length % 256 := rfl
    have g3 : (170 :: 85 :: X : List Nat).getD 3 0 = f.length / 256 % 256 := rfl
    rw [g2, g3]
    exact le16_decode f.length (by omega)
  have hrc : receive_check (170 :: 85 :: X) 0 = .done ((deserialize (170 :: 85 :: X)).toRRes) := by
    unfold receive_check
    rw [if_pos (⟨rfl, by rw [hXl]; omega⟩ :
      (0 : Nat) = 0 ∧ 4 ≤ (170 :: 85 :: X : List Nat).length)]
    rw [hexp]
    have hmod : (f.length + 4) % 65536 = f.length + 4 := Nat.mod_eq_of_lt (by omega)
    rw [if_pos ⟨by omega, by rw [hmod, hXl]; omega⟩]
    rw [hmod]
    rw [List.take_of_length_le (by rw [hXl]; omega)]
  rw [hrc]
  rw [show (170 :: 85 :: X : List Nat) = f.serialize from hshape.symm]
  rw [deserialize_serialize mt [p0, p1] d hmt rfl hd]
  rfl

/-- Claim C8 counterexample: 1000 bytes of zero noise (no preamble pair)
followed by a validly encoded HELLO frame is not always recovered: if the
read boundary falls right after the first preamble byte, the accumulator
holds 1001 bytes without a complete preamble pair, is discarded — taking
the 0xAA of the frame with it — and the rest of the frame never resyncs, so
`receive_frame` reports no data instead of returning the frame. -/
theorem transport_resync_counterexample :
    find_preamble (List.replicate 1000 0) = none ∧
    (List.replicate 1000 0).length ≤ 1000 ∧
    (List.replicate 1000 0 ++ [170])
        ++ (85 :: 6 :: 0 :: 1 :: 0 :: 0 :: 0 :: le16 (gcp_crc16 [6, 0, 1, 0, 0, 0]))
      = List.replicate 1000 0 ++ (GcpFrame.new GcpCommand.Hello).serialize ∧
    deserialize (GcpFrame.new GcpCommand.Hello).serialize
      = .dok { length := 6, msg_type := GcpCommand.Hello,
               parameters := [0, 0], data := [] } ∧
    receive_loop [] false 0
        [List.replicate 1000 0 ++ [170],
         85 :: 6 :: 0 :: 1 :: 0 :: 0 :: 0 :: le16 (gcp_crc16 [6, 0, 1, 0, 0, 0])]
      = .noData := by
  refine ⟨find_preamble_replicate_zero 1000, by simp, ?_, by decide, ?_⟩
  · rw [List.append_assoc]
    rfl
  · rw [receive_clear [] (List.replicate 1000 0 ++ [170]) 0 _
      (by simp)
      (by rw [List.nil_append]; exact find_preamble_replicate_zero_aa 1000)
      (by simp)]
    decide

/-- Claim C8 (corrected): whenever the noise (of any length, with no
0xAA 0x55 pair) and the entire validly encoded frame arrive within a
single read, `receive_frame` discards the noise and returns the decoded
frame; and whenever no preamble has been found and the accumulated buffer
exceeds 1000 bytes after a read, the accumulator is discarded rather than
growing unboundedly.  But the discard is not noise-safe: a read boundary
that splits the preamble while the buffer exceeds 1000 bytes loses the
frame, so the claim does not hold for every read partition of the
stream. -/
theorem transport_resync_amended :
    (∀ (mt : GcpCommand) (p d noise : List Nat) (rest : List (List Nat)),
      ¬(mt = GcpCommand.Ack) → p.length = 2 → d.length ≤ 65525 →
      find_preamble noise = none →
      receive_loop [] false 0
          ((noise ++ (GcpFrame.with_data mt p d).serialize) :: rest)
        = .rok (GcpFrame.with_data mt p d)) ∧
    (∀ (buf r : List Nat) (e : Nat) (rest : List (List Nat)),
      ¬(r.length = 0) → find_preamble (buf ++ r) = none →
      1000 < (buf ++ r).length →
      receive_loop buf false e (r :: rest) = receive_loop [] false e rest) :=
  ⟨receive_single_read, receive_clear⟩

/-- Witness for C8: three noise bytes plus a HELLO frame in one read are
decoded; a 1001-byte preamble-free read is discarded. -/
theorem transport_resync_amended_witness :
    receive_loop [] false 0
        [[7, 7, 7] ++ (GcpFrame.with_data GcpCommand.Hello [0, 0] [1]).serialize]
      = .rok (GcpFrame.with_data GcpCommand.Hello [0, 0] [1]) ∧
    receive_loop [] false 0 [List.replicate 1001 0, [9]]
      = receive_loop [] false 0 [[9]] :=
  ⟨transport_resync_amended.1 GcpCommand.Hello [0, 0] [1] [7, 7, 7] []
      (by decide) (by decide) (by decide) (by decide),
   transport_resync_amended.2 [] (List.replicate 1001 0) 0 [[9]]
      (by simp)
      (by rw [List.nil_append]; exact find_preamble_replicate_zero 1001)
      (by simp)⟩
